import Mathlib

/-!
Verification of the EauSure profile backend (server.js, final revision).

The server stores two Mongo collections: `users` (Account identity records)
and `userProfiles` (supplementary Profile records keyed by the email or
auth id of the user).  Route handlers are embedded as pure state-passing functions
over list-backed stores; JavaScript truthiness on strings (undefined, null
and "" are falsy) is modelled over `Option String`, where `none` stands for
an absent field.
-/

namespace EauSure

/-- JavaScript truthiness for a possibly-absent string: absent, null and
the empty string are falsy. -/
def jsTruthy : Option String → Bool
  | none => false
  | some s => !(s == "")

/-- Fallback `a || b` on possibly-absent strings, as in the `||` fallback chains of
the merge code. -/
def jsOr (a b : Option String) : Option String :=
  if jsTruthy a then a else b

/-- Fallback `a || d` where the final default `d` is a plain string, e.g.
`user.name || ""` or `profile.timezone || "Africa/Tunis"`. -/
def jsOrStr (a : Option String) (d : String) : String :=
  if jsTruthy a then a.getD "" else d

/-- Notification toggles of the `preferences.notifications` sub-schema
(server.js lines 378-387). -/
structure Notifications where
  push : Bool
  fall_detection : Bool
  emailAlerts : Bool
  criticalOnly : Bool
  dailySummary : Bool
  maintenanceReminders : Bool
deriving DecidableEq, Repr

/-- Unit preferences of the `preferences.units` sub-schema
(server.js lines 388-391).  Kept as strings; the schema restricts them by
enum validators, modelled by `validUnits`. -/
structure Units where
  temperature : String
  distance : String
deriving DecidableEq, Repr

/-- The `preferences` sub-schema (server.js lines 377-393). -/
structure Preferences where
  notifications : Notifications
  units : Units
  language : String
deriving DecidableEq, Repr

/-- Schema defaults of `preferences.notifications` (lines 378-387). -/
def defaultNotifications : Notifications :=
  { push := true
    fall_detection := true
    emailAlerts := true
    criticalOnly := false
    dailySummary := true
    maintenanceReminders := true }

/-- Schema defaults of `preferences.units` (lines 388-391). -/
def defaultUnits : Units :=
  { temperature := "celsius", distance := "metric" }

/-- Schema defaults of `preferences` (lines 377-393): all toggles true
except `criticalOnly`, celsius/metric units, language "en". -/
def defaultPreferences : Preferences :=
  { notifications := defaultNotifications
    units := defaultUnits
    language := "en" }

/-- Enum validation of `preferences.units` (lines 389-390). -/
def validUnits (u : Units) : Bool :=
  (u.temperature == "celsius" || u.temperature == "fahrenheit") &&
  (u.distance == "metric" || u.distance == "imperial")

/-- Schema validation of a `preferences` value: only the unit fields carry
enum validators. -/
def validPrefs (p : Preferences) : Bool :=
  validUnits p.units

/-- A document of the `users` collection (UserSchema, server.js lines
403-416).  `email` is required and unique; every other field may be absent
on a raw document, hence `Option`.  `_id` is the Mongo object id, modelled
as its string form. -/
structure Account where
  _id : String
  email : String
  name : Option String
  avatar : Option String
  image : Option String
  organization : Option String
  phone : Option String
  role : Option String
  isProfileComplete : Option Bool
  createdAt : Nat
  updatedAt : Nat
deriving DecidableEq, Repr

/-- A document of the `userProfiles` collection (UserProfileSchema,
server.js lines 369-399).  `userId` is required (email or auth id) and
unique; the other fields may be absent on a raw document.  `timestamps:
true` maintains `createdAt` and `updatedAt`, modelled as abstract clock
values. -/
structure Profile where
  _id : String
  userId : String
  bio : Option String
  organization : Option String
  role : Option String
  phone : Option String
  timezone : Option String
  preferences : Option Preferences
  createdAt : Nat
  updatedAt : Nat
deriving DecidableEq, Repr

/-- The profile produced by `UserProfile.create({ userId: key })`
(lines 526 / 576): schema defaults for every field, fresh `_id`, both
timestamps at the creation instant. -/
def defaultProfile (key : String) (freshId : String) (now : Nat) : Profile :=
  { _id := freshId
    userId := key
    bio := some ""
    organization := some ""
    role := some ""
    phone := some ""
    timezone := some "Africa/Tunis"
    preferences := some defaultPreferences
    createdAt := now
    updatedAt := now }

/-- The merged Account+Profile view returned by the `/api/me` routes.
`preferences := none` encodes the literal empty object `{}` produced by
`profile.preferences || {}` when the profile document lacks the field. -/
structure Merged where
  email : String
  name : String
  avatar : String
  image : String
  organization : String
  phone : String
  timezone : String
  preferences : Option Preferences
deriving DecidableEq, Repr

/-- The merge object literal of GET /api/me (server.js lines 581-590). -/
def mergeGet (user : Account) (profile : Profile) : Merged :=
  { email := user.email
    name := jsOrStr user.name ""
    avatar := jsOrStr user.avatar ""
    image := jsOrStr user.image ""
    organization := jsOrStr user.organization (jsOrStr profile.organization "")
    phone := jsOrStr user.phone (jsOrStr profile.phone "")
    timezone := jsOrStr profile.timezone "Africa/Tunis"
    preferences := profile.preferences }

/-- The merge object literal of PUT /api/me (server.js lines 668-677). -/
def mergePut (user : Account) (profile : Profile) : Merged :=
  { email := user.email
    name := jsOrStr user.name ""
    avatar := jsOrStr user.avatar ""
    image := jsOrStr user.image ""
    organization := jsOrStr user.organization (jsOrStr profile.organization "")
    phone := jsOrStr user.phone (jsOrStr profile.phone "")
    timezone := jsOrStr profile.timezone "Africa/Tunis"
    preferences := profile.preferences }

/-- Specification-side reading of a single-record field with default: the
field value when present and non-empty, otherwise the default `d`. -/
def specStringField (a : Option String) (d : String) : String :=
  match a with
  | none => d
  | some s => if s = "" then d else s

/-- Specification-side reading of a two-record fallback field: the Account
value when present and non-empty, else the Profile value when present and
non-empty, else the default `d`. -/
def specFallback (a b : Option String) (d : String) : String :=
  match a with
  | none => specStringField b d
  | some s => if s = "" then specStringField b d else s

/-- A decoded JWT payload: the four identifier fields the middleware
inspects.  A field is `none` when the payload lacks it. -/
structure Payload where
  email : Option String
  id : Option String
  userId : Option String
  sub : Option String
deriving DecidableEq, Repr

/-- The chain `decoded.email || decoded.id || decoded.userId || decoded.sub`
(server.js line 450). -/
def identifierChain (d : Payload) : Option String :=
  jsOr d.email (jsOr d.id (jsOr d.userId d.sub))

/-- Outcome of the authentication middleware: an early error response or
`next()` with the resolved identifier attached to the request. -/
inductive AuthResult where
  | missingToken
  | invalidToken
  | badPayload
  | ok (identifier : String)
deriving DecidableEq, Repr

/-- The HTTP response each early-exit outcome sends (status and `message`
field); `none` for `ok`, where the middleware calls `next()` and sends no
response itself (lines 432, 440, 454). -/
def authResponse : AuthResult → Option (Nat × String)
  | AuthResult.missingToken => some (401, "Token missing")
  | AuthResult.invalidToken => some (403, "Token invalid")
  | AuthResult.badPayload => some (400, "Invalid token payload")
  | AuthResult.ok _ => none

/-- The payload step of `authenticateToken` (lines 450-459): resolve the
identifier by the `||` chain; if the result is falsy, answer 400, else
proceed with the identifier. -/
def authPayloadStep (d : Payload) : AuthResult :=
  let r := identifierChain d
  if jsTruthy r then AuthResult.ok (r.getD "") else AuthResult.badPayload

/-- Character-list core of the JavaScript `String.prototype.split` on a
single separator character: every separator opens a new (possibly empty)
word. -/
def splitChars (sep : Char) : List Char → List (List Char)
  | [] => [[]]
  | c :: rest =>
      let r := splitChars sep rest
      if c == sep then [] :: r
      else
        match r with
        | [] => [[c]]
        | w :: ws => (c :: w) :: ws

/-- JavaScript `s.split(sep)` for a one-character separator. -/
def jsSplit (s : String) (sep : Char) : List String :=
  (splitChars sep s.toList).map (fun cs => String.mk cs)

def startsWithChars : List Char → List Char → Bool
  | [], _ => true
  | _ :: _, [] => false
  | c :: cs, d :: ds => c == d && startsWithChars cs ds

/-- JavaScript `s.startsWith(pre)`. -/
def jsStartsWith (s pre : String) : Bool :=
  startsWithChars pre.toList s.toList

/-- Bearer-token extraction (line 428): the header must start with
"Bearer " and the token is element 1 of the split on spaces, otherwise
null. -/
def extractBearer : Option String → Option String
  | none => none
  | some a => if jsStartsWith a "Bearer " then (jsSplit a ' ')[1]? else none

/-- The whole `authenticateToken` middleware (lines 424-461), with JWT
verification abstracted as a function from the token to either an error or
the decoded payload. -/
def authenticateToken (authHeader : Option String)
    (verify : String → Except String Payload) : AuthResult :=
  match extractBearer authHeader with
  | none => AuthResult.missingToken
  | some token =>
      if token = "" then AuthResult.missingToken
      else
        match verify token with
        | Except.error _ => AuthResult.invalidToken
        | Except.ok decoded => authPayloadStep decoded

/-- First field of the list that is present and non-empty, the
specification-side reading of "first non-empty wins". -/
def firstNonEmpty : List (Option String) → Option String
  | [] => none
  | o :: rest =>
      match o with
      | some s => if s = "" then firstNonEmpty rest else some s
      | none => firstNonEmpty rest

lemma jsOrStr_eq_specStringField (a : Option String) (d : String) :
    jsOrStr a d = specStringField a d := by
  cases a with
  | none => rfl
  | some s =>
      simp only [jsOrStr, jsTruthy, Option.getD, specStringField]
      by_cases h : s = "" <;> simp [h]

lemma jsOrStr_chain_eq_specFallback (a b : Option String) :
    jsOrStr a (jsOrStr b "") = specFallback a b "" := by
  cases a with
  | none =>
      have h1 : jsOrStr (none : Option String) (jsOrStr b "") = jsOrStr b "" := rfl
      rw [h1, jsOrStr_eq_specStringField]
      rfl
  | some s =>
      by_cases h : s = ""
      · subst h
        have h1 : jsOrStr (some "") (jsOrStr b "") = jsOrStr b "" := by
          simp [jsOrStr, jsTruthy]
        rw [h1, jsOrStr_eq_specStringField]
        simp [specFallback]
      · simp [jsOrStr, jsTruthy, specFallback, h]

/-- C1: For every resolved Account and Profile pair, the merged view of
GET /api/me takes name, avatar and image from the Account only (defaulting
to "" when absent or empty), takes organization and phone from the Account,
falling back to the Profile, then "", and takes timezone and preferences
from the Profile only, defaulting to "Africa/Tunis" and the empty object
when the Profile lacks them. -/
theorem mergeGet_follows_spec (user : Account) (profile : Profile) :
    mergeGet user profile =
      { email := user.email
        name := specStringField user.name ""
        avatar := specStringField user.avatar ""
        image := specStringField user.image ""
        organization := specFallback user.organization profile.organization ""
        phone := specFallback user.phone profile.phone ""
        timezone := specStringField profile.timezone "Africa/Tunis"
        preferences := profile.preferences } := by
  unfold mergeGet
  rw [jsOrStr_eq_specStringField user.name, jsOrStr_eq_specStringField user.avatar,
    jsOrStr_eq_specStringField user.image, jsOrStr_chain_eq_specFallback,
    jsOrStr_chain_eq_specFallback, jsOrStr_eq_specStringField profile.timezone]

/-- C10: GET /api/me and PUT /api/me compute the merged response with the
identical merge function: on the same resolved Account and Profile both
routes produce equal merged objects. -/
theorem mergeGet_eq_mergePut (user : Account) (profile : Profile) :
    mergeGet user profile = mergePut user profile := rfl

/-- Turn a possibly-absent identifier into the middleware outcome, as the
final `if` of the payload step does. -/
def identOutcome (r : Option String) : AuthResult :=
  if jsTruthy r then AuthResult.ok (r.getD "") else AuthResult.badPayload

/-- Right fold of `jsOr` over a list of fields. -/
def jsOrList : List (Option String) → Option String
  | [] => none
  | o :: rest => jsOr o (jsOrList rest)

lemma identOutcome_jsOr (o r : Option String) :
    identOutcome (jsOr o r) =
      match o with
      | some s => if s = "" then identOutcome r else AuthResult.ok s
      | none => identOutcome r := by
  cases o with
  | none => simp [jsOr, jsTruthy]
  | some s =>
      by_cases h : s = "" <;>
        simp [identOutcome, jsOr, jsTruthy, h]

lemma identOutcome_jsOr_congr (a : Option String) {b c : Option String}
    (h : identOutcome b = identOutcome c) :
    identOutcome (jsOr a b) = identOutcome (jsOr a c) := by
  rw [identOutcome_jsOr, identOutcome_jsOr, h]

lemma firstNonEmpty_outcome (l : List (Option String)) :
    (match firstNonEmpty l with
      | some s => AuthResult.ok s
      | none => AuthResult.badPayload) = identOutcome (jsOrList l) := by
  induction l with
  | nil => simp [firstNonEmpty, jsOrList, identOutcome, jsTruthy]
  | cons o rest ih =>
      rw [jsOrList, identOutcome_jsOr]
      cases o with
      | none => simpa [firstNonEmpty] using ih
      | some s =>
          by_cases h : s = ""
          · simp only [firstNonEmpty, h, if_pos]
            exact ih
          · simp [firstNonEmpty, h]

/-- C2: the authenticator resolves the identifier by checking payload
fields in order email, id, userId, sub, first non-empty value winning; in
particular a payload holding only sub = "u1" resolves to "u1". -/
theorem resolveIdentifier_order (d : Payload) :
    (authPayloadStep d =
      match firstNonEmpty [d.email, d.id, d.userId, d.sub] with
      | some s => AuthResult.ok s
      | none => AuthResult.badPayload) ∧
    authPayloadStep { email := none, id := none, userId := none, sub := some "u1" } =
      AuthResult.ok "u1" := by
  refine ⟨?_, by decide⟩
  rw [firstNonEmpty_outcome [d.email, d.id, d.userId, d.sub]]
  have base : identOutcome (jsOr d.sub none) = identOutcome d.sub := by
    cases d.sub with
    | none => rfl
    | some s => by_cases h : s = "" <;> simp [identOutcome, jsOr, jsTruthy, h]
  have chain := identOutcome_jsOr_congr d.email
    (identOutcome_jsOr_congr d.id (identOutcome_jsOr_congr d.userId base))
  show identOutcome (identifierChain d) =
    identOutcome (jsOrList [d.email, d.id, d.userId, d.sub])
  exact chain.symm

/-! ### Stores and route handlers -/

/-- HTTP outcome of a route handler: `ok body` for `res.json(body)` (200),
`err status msg` for `res.status(status).json(...)`. -/
inductive HResult (α : Type) where
  | ok (body : α)
  | err (status : Nat) (msg : String)
deriving DecidableEq, Repr

/-- The two collections the server reads and writes. -/
structure DB where
  users : List Account
  profiles : List Profile
deriving DecidableEq, Repr

/-- Lookup `UserProfile.findOne` by the field userId equal to key. -/
def findProfile (profiles : List Profile) (key : String) : Option Profile :=
  profiles.find? (fun p => p.userId == key)

/-- Lookup `User.findOne` by the email field. -/
def findUserByEmail (users : List Account) (email : String) : Option Account :=
  users.find? (fun u => u.email == email)

/-- Lookup `User.findById(id)`. -/
def findUserById (users : List Account) (id : String) : Option Account :=
  users.find? (fun u => u._id == id)

/-- Validity check `mongoose.Types.ObjectId.isValid`: a 12-character string or a
24-character hex string. -/
def isValidObjectId (s : String) : Bool :=
  s.length == 12 ||
    (s.length == 24 &&
      s.toList.all (fun c =>
        c.isDigit || ('a' ≤ c && c ≤ 'f') || ('A' ≤ c && c ≤ 'F')))

/-- Account resolution shared by GET and PUT /api/me (lines 553-559 and
621-624): find by email first, then fall back to `findById` when the
identifier is a valid object-id format. -/
def resolveUser (users : List Account) (identifier : String) : Option Account :=
  match findUserByEmail users identifier with
  | some u => some u
  | none =>
      if isValidObjectId identifier then findUserById users identifier
      else none

/-- Creation `UserProfile.create` under the unique index on `userId` (line 401):
fails with Mongo error code 11000 when a document with the same key is
already present. -/
def createProfile (db : List Profile) (p : Profile) : Except Nat (List Profile) :=
  if db.any (fun q => q.userId == p.userId) then Except.error 11000
  else Except.ok (db ++ [p])

/-- GET /api/profile (lines 514-540).  The `race` parameter is a profile a
concurrent request may insert between the `findOne` miss and the `create`;
`none` models the uncontended run.  The response body is an `Option`
because the recovery branch at line 533 sends whatever the refetch
returns. -/
def getProfileHandler (key : String) (db : List Profile) (race : Option Profile)
    (freshId : String) (now : Nat) : HResult (Option Profile) × List Profile :=
  match findProfile db key with
  | some p => (HResult.ok (some p), db)
  | none =>
      let db1 := match race with
        | some q => db ++ [q]
        | none => db
      let fresh := defaultProfile key freshId now
      match createProfile db1 fresh with
      | Except.ok db2 => (HResult.ok (some fresh), db2)
      | Except.error code =>
          if code == 11000 then (HResult.ok (findProfile db1 key), db1)
          else (HResult.err 500 "create failed", db1)

/-- Request body of PUT /api/profile.  A field is `none` when the JSON
body lacks it; the four immutable fields may still be present and are the
ones lines 699-702 delete. -/
structure UpdateBody where
  userId : Option String
  _id : Option String
  createdAt : Option Nat
  updatedAt : Option Nat
  bio : Option String
  organization : Option String
  role : Option String
  phone : Option String
  timezone : Option String
  preferences : Option Preferences
deriving DecidableEq, Repr

/-- The four `delete updates.x` statements of lines 699-702. -/
def stripImmutable (b : UpdateBody) : UpdateBody :=
  { b with userId := none, _id := none, createdAt := none, updatedAt := none }

/-- Mongo `$set` of one optional field: overwrite when the update carries it,
keep the stored value otherwise. -/
def setField {α : Type} (nw old : Option α) : Option α :=
  match nw with
  | some v => some v
  | none => old

/-- Mongo `$set` of an update body over a profile document. -/
def applySet (p : Profile) (b : UpdateBody) : Profile :=
  { _id := b._id.getD p._id
    userId := b.userId.getD p.userId
    bio := setField b.bio p.bio
    organization := setField b.organization p.organization
    role := setField b.role p.role
    phone := setField b.phone p.phone
    timezone := setField b.timezone p.timezone
    preferences := setField b.preferences p.preferences
    createdAt := b.createdAt.getD p.createdAt
    updatedAt := b.updatedAt.getD p.updatedAt }

/-- Validation under `runValidators: true`: the only schema validators are the unit enums
inside `preferences`. -/
def validBody (b : UpdateBody) : Bool :=
  match b.preferences with
  | some pr => validPrefs pr
  | none => true

/-- Replace the first profile whose `userId` matches `key`, as
`findOneAndUpdate` writes back the single matched document. -/
def setFirst : List Profile → String → Profile → List Profile
  | [], _, _ => []
  | q :: rest, key, p =>
      if q.userId == key then p :: rest else q :: setFirst rest key p

/-- PUT /api/profile (lines 692-717): strip immutable fields, then
`findOneAndUpdate({ userId }, { $set: updates }, { new, upsert,
runValidators })`.  With `timestamps: true` the update also refreshes
`updatedAt`; on upsert the defaults, the query key and both timestamps are
set on the inserted document. -/
def putProfileHandler (key : String) (body : UpdateBody) (db : List Profile)
    (freshId : String) (now : Nat) : HResult Profile × List Profile :=
  if validBody (stripImmutable body) then
    match findProfile db key with
    | some p =>
        (HResult.ok { applySet p (stripImmutable body) with updatedAt := now },
          setFirst db key { applySet p (stripImmutable body) with updatedAt := now })
    | none =>
        (HResult.ok
            { applySet (defaultProfile key freshId now) (stripImmutable body) with
                updatedAt := now },
          db ++ [{ applySet (defaultProfile key freshId now) (stripImmutable body) with
              updatedAt := now }])
  else (HResult.err 500 "ValidationError", db)

/-- GET /api/me (lines 543-604): resolve the Account, 404 when missing,
get-or-create the Profile keyed by the account email, return the merge. -/
def getMeHandler (identifier : String) (db : DB) (freshId : String) (now : Nat) :
    HResult Merged × DB :=
  match resolveUser db.users identifier with
  | none => (HResult.err 404 "User not found", db)
  | some user =>
      let userKey := user.email
      match findProfile db.profiles userKey with
      | some profile => (HResult.ok (mergeGet user profile), db)
      | none =>
          let profile := defaultProfile userKey freshId now
          (HResult.ok (mergeGet user profile),
            { db with profiles := db.profiles ++ [profile] })

/-- Request body of PUT /api/me.  The handler accepts each textual field
only through a `typeof === "string"` guard and the preferences only
through a `typeof === "object"` guard (lines 634-646), so a present
non-conforming value acts exactly like an absent one; both are `none`
here. -/
structure MeBody where
  name : Option String
  avatar : Option String
  image : Option String
  organization : Option String
  phone : Option String
  timezone : Option String
  preferences : Option Preferences
deriving DecidableEq, Repr

/-- Mongo `$set` of the accepted user updates over the `users` document, with
the `timestamps: true` refresh of `updatedAt` (lines 634-655). -/
def applyUserSet (u : Account) (b : MeBody) (now : Nat) : Account :=
  { u with
    name := setField b.name u.name
    avatar := setField b.avatar u.avatar
    image := setField b.image u.image
    organization := setField b.organization u.organization
    phone := setField b.phone u.phone
    updatedAt := now }

/-- Replace the first account whose `email` matches, as
`User.findOneAndUpdate({ email }, ...)` writes back one document. -/
def setFirstUser : List Account → String → Account → List Account
  | [], _, _ => []
  | q :: rest, email, u =>
      if q.email == email then u :: rest else q :: setFirstUser rest email u

/-- The profile-updatable subset of a PUT /api/me body (lines 642-646):
timezone and preferences only. -/
def meProfileUpdates (b : MeBody) : UpdateBody :=
  { userId := none, _id := none, createdAt := none, updatedAt := none,
    bio := none, organization := none, role := none, phone := none,
    timezone := b.timezone, preferences := b.preferences }

/-- PUT /api/me (lines 607-689): resolve the Account (404 when missing),
update the `users` document by its email, upsert the profile keyed by
that email, and return the merge of the two updated documents.  A
validator failure on the profile upsert is caught at line 685 and sent as
500, after the user update has already been applied. -/
def putMeHandler (identifier : String) (body : MeBody) (db : DB)
    (freshId : String) (now : Nat) : HResult Merged × DB :=
  match resolveUser db.users identifier with
  | none => (HResult.err 404 "User not found", db)
  | some userDoc =>
      let email := userDoc.email
      match findUserByEmail db.users email with
      | none => (HResult.err 500 "Cannot read properties of null", db)
      | some target =>
          let user := applyUserSet target body now
          let users2 := setFirstUser db.users email user
          if validBody (meProfileUpdates body) then
            match findProfile db.profiles email with
            | some p =>
                let profile := { applySet p (meProfileUpdates body) with updatedAt := now }
                (HResult.ok (mergePut user profile),
                  { users := users2, profiles := setFirst db.profiles email profile })
            | none =>
                let profile :=
                  { applySet (defaultProfile email freshId now) (meProfileUpdates body) with
                      updatedAt := now }
                (HResult.ok (mergePut user profile),
                  { users := users2, profiles := db.profiles ++ [profile] })
          else (HResult.err 500 "ValidationError", { db with users := users2 })

/-! ### Supporting lemmas on the list-backed stores -/

lemma findProfile_append_of_none (db : List Profile) (key : String) (p : Profile)
    (h : findProfile db key = none) (hp : p.userId = key) :
    findProfile (db ++ [p]) key = some p := by
  induction db with
  | nil => simp [findProfile, hp]
  | cons q rest ih =>
      simp only [findProfile, List.cons_append, List.find?_cons] at h ⊢
      cases hq : (q.userId == key) with
      | true => simp [hq] at h
      | false =>
          simp only [hq] at h ⊢
          exact ih h

lemma findProfile_none_any (db : List Profile) (key : String)
    (h : findProfile db key = none) :
    db.any (fun q => q.userId == key) = false := by
  induction db with
  | nil => rfl
  | cons q rest ih =>
      simp only [findProfile, List.find?_cons] at h
      cases hq : (q.userId == key) with
      | true => simp [hq] at h
      | false =>
          simp only [hq] at h
          simp [List.any_cons, hq, ih h]

lemma mem_setFirst (l : List Profile) (key : String) (p q : Profile)
    (h : q ∈ setFirst l key p) : q ∈ l ∨ q = p := by
  induction l with
  | nil => simp [setFirst] at h
  | cons r rest ih =>
      simp only [setFirst] at h
      by_cases hr : (r.userId == key) = true
      · rw [if_pos hr] at h
        rcases List.mem_cons.mp h with h1 | h1
        · right; exact h1
        · left; exact List.mem_cons_of_mem _ h1
      · rw [if_neg hr] at h
        rcases List.mem_cons.mp h with h1 | h1
        · left; exact h1 ▸ List.mem_cons_self _ _
        · rcases ih h1 with h2 | h2
          · left; exact List.mem_cons_of_mem _ h2
          · right; exact h2

lemma findProfile_setFirst (db : List Profile) (key : String) (p p2 : Profile)
    (h : findProfile db key = some p) (hp2 : p2.userId = key) :
    findProfile (setFirst db key p2) key = some p2 := by
  induction db with
  | nil => simp [findProfile] at h
  | cons q rest ih =>
      simp only [findProfile, List.find?_cons, setFirst] at h ⊢
      cases hq : (q.userId == key) with
      | true => simp [hq, findProfile, List.find?_cons, hp2]
      | false =>
          simp only [hq] at h
          simp only [Bool.false_eq_true, if_false, findProfile, List.find?_cons, hq]
          exact ih h

lemma setFirst_append_missing (db : List Profile) (key : String) (p : Profile)
    (h : findProfile db key = none) (hp : p.userId = key) :
    setFirst (db ++ [p]) key p = db ++ [p] := by
  induction db with
  | nil => simp [setFirst, hp]
  | cons q rest ih =>
      simp only [findProfile, List.find?_cons] at h
      cases hq : (q.userId == key) with
      | true => simp [hq] at h
      | false =>
          simp only [hq] at h
          simp [setFirst, hq, ih h]

lemma setFirst_setFirst (db : List Profile) (key : String) (p : Profile)
    (hp : p.userId = key) :
    setFirst (setFirst db key p) key p = setFirst db key p := by
  induction db with
  | nil => rfl
  | cons q rest ih =>
      simp only [setFirst]
      cases hq : (q.userId == key) with
      | true => simp [setFirst, hp]
      | false => simp [setFirst, hq, ih]

lemma getD_getD {α : Type} (o : Option α) (x : α) :
    o.getD (o.getD x) = o.getD x := by
  cases o <;> rfl

lemma setField_setField {α : Type} (o r : Option α) :
    setField o (setField o r) = setField o r := by
  cases o <;> rfl

/-- One update step of PUT /api/profile applied to the outcome of the same
step is a fixed point: the stripped body carries no timestamp, so only the
same values are written again. -/
lemma applySet_strip_step (p : Profile) (b : UpdateBody) (now : Nat) :
    { applySet { applySet p (stripImmutable b) with updatedAt := now }
        (stripImmutable b) with updatedAt := now } =
      { applySet p (stripImmutable b) with updatedAt := now } := by
  simp [applySet, stripImmutable, getD_getD, setField_setField]

/-! ### Claim theorems on the handlers -/

/-- C3: when the bearer token verifies but the payload carries none of the
four identifier fields, the middleware answers 400 with message "Invalid
token payload" and never reaches the route handler. -/
theorem badPayload_rejected (hdr tok : String)
    (verify : String → Except String Payload) (p : Payload)
    (hbearer : extractBearer (some hdr) = some tok) (htok : tok ≠ "")
    (hverify : verify tok = Except.ok p)
    (he : p.email = none) (hi : p.id = none) (hu : p.userId = none)
    (hs : p.sub = none) :
    authenticateToken (some hdr) verify = AuthResult.badPayload ∧
    authResponse (authenticateToken (some hdr) verify) =
      some (400, "Invalid token payload") ∧
    ∀ s, authenticateToken (some hdr) verify ≠ AuthResult.ok s := by
  have hpay : authPayloadStep p = AuthResult.badPayload := by
    have hp : p = { email := none, id := none, userId := none, sub := none } := by
      cases p
      simp_all
    rw [hp]
    decide
  have hmain : authenticateToken (some hdr) verify = AuthResult.badPayload := by
    unfold authenticateToken
    rw [hbearer]
    simp [htok, hverify, hpay]
  refine ⟨hmain, by rw [hmain]; rfl, ?_⟩
  intro s hcontra
  rw [hmain] at hcontra
  cases hcontra

/-- Witness for C3 at a concrete header, token and payload. -/
theorem badPayload_rejected_witness :
    extractBearer (some "Bearer abc") = some "abc" ∧
    ("abc" : String) ≠ "" ∧
    (fun _ : String => (Except.ok (⟨none, none, none, none⟩ : Payload) : Except String Payload)) "abc" =
      (Except.ok (⟨none, none, none, none⟩ : Payload) : Except String Payload) ∧
    (authenticateToken (some "Bearer abc")
        (fun _ => (Except.ok (⟨none, none, none, none⟩ : Payload) : Except String Payload)) =
          AuthResult.badPayload ∧
      authResponse (authenticateToken (some "Bearer abc")
          (fun _ => (Except.ok (⟨none, none, none, none⟩ : Payload) : Except String Payload))) =
        some (400, "Invalid token payload") ∧
      ∀ s, authenticateToken (some "Bearer abc")
          (fun _ => (Except.ok (⟨none, none, none, none⟩ : Payload) : Except String Payload)) ≠
            AuthResult.ok s) :=
  ⟨by decide, by decide, rfl,
    badPayload_rejected "Bearer abc" "abc" _ _ (by decide) (by decide) rfl
      rfl rfl rfl rfl⟩

/-- C4: when GET /api/profile misses, and a concurrent request inserts the
profile before the create, the unique-index failure (code 11000) is caught:
the handler refetches the concurrently created document and sends it as a
success; no error reaches the caller. -/
theorem getProfile_race_recovered (key : String) (db : List Profile) (q : Profile)
    (freshId : String) (now : Nat)
    (hmiss : findProfile db key = none) (hq : q.userId = key) :
    getProfileHandler key db (some q) freshId now =
      (HResult.ok (some q), db ++ [q]) := by
  unfold getProfileHandler
  rw [hmiss]
  have hany : ((db ++ [q]).any
      (fun r => r.userId == (defaultProfile key freshId now).userId)) = true := by
    simp [defaultProfile, List.any_append, findProfile_none_any db key hmiss, hq]
  have hcreate : createProfile (db ++ [q]) (defaultProfile key freshId now) =
      Except.error 11000 := by
    simp [createProfile, hany]
  simp only [hcreate]
  have hfetch : findProfile (db ++ [q]) key = some q :=
    findProfile_append_of_none db key q hmiss hq
  simp [hfetch]

/-- Witness for C4 with a concrete key, empty store and a concrete
racing profile. -/
theorem getProfile_race_recovered_witness :
    findProfile [] "u@x.com" = none ∧
    (defaultProfile "u@x.com" "pid1" 3).userId = "u@x.com" ∧
    getProfileHandler "u@x.com" [] (some (defaultProfile "u@x.com" "pid1" 3)) "pid2" 7 =
      (HResult.ok (some (defaultProfile "u@x.com" "pid1" 3)),
        [defaultProfile "u@x.com" "pid1" 3]) :=
  ⟨rfl, rfl,
    getProfile_race_recovered "u@x.com" [] (defaultProfile "u@x.com" "pid1" 3)
      "pid2" 7 rfl rfl⟩

lemma findProfile_userId (db : List Profile) (key : String) (p : Profile)
    (h : findProfile db key = some p) : p.userId = key := by
  induction db with
  | nil => simp [findProfile] at h
  | cons q rest ih =>
      simp only [findProfile, List.find?_cons] at h
      cases hq : (q.userId == key) with
      | true =>
          simp [hq] at h
          subst h
          exact eq_of_beq hq
      | false =>
          simp only [hq] at h
          exact ih h

/-- C5: PUT /api/profile strips userId, _id and both timestamps from the
body before the update: the handler is invariant under those body fields,
the stored record keeps its key, internal id and creation timestamp, and
the request is answered with success rather than rejected. -/
theorem putProfile_ignores_immutable (key : String) (b : UpdateBody)
    (db : List Profile) (freshId : String) (now : Nat) (p : Profile)
    (hp : findProfile db key = some p)
    (hv : validBody (stripImmutable b) = true) :
    putProfileHandler key b db freshId now =
      putProfileHandler key (stripImmutable b) db freshId now ∧
    ∃ p2, putProfileHandler key b db freshId now =
        (HResult.ok p2, setFirst db key p2) ∧
      p2.userId = p.userId ∧ p2._id = p._id ∧ p2.createdAt = p.createdAt := by
  have hstrip : stripImmutable (stripImmutable b) = stripImmutable b := by
    simp [stripImmutable]
  constructor
  · unfold putProfileHandler
    rw [hstrip]
  · refine ⟨{ applySet p (stripImmutable b) with updatedAt := now }, ?_, ?_, ?_, ?_⟩
    · simp [putProfileHandler, hv, hp]
    · simp [applySet, stripImmutable]
    · simp [applySet, stripImmutable]
    · simp [applySet, stripImmutable]

/-- Witness for C5: a body trying to overwrite userId, _id and both
timestamps against a store holding one profile. -/
theorem putProfile_ignores_immutable_witness :
    findProfile [defaultProfile "u@x.com" "pid" 0] "u@x.com" =
      some (defaultProfile "u@x.com" "pid" 0) ∧
    validBody (stripImmutable
      { userId := some "evil", _id := some "E", createdAt := some 99,
        updatedAt := some 99, bio := some "hello", organization := none,
        role := none, phone := none, timezone := none, preferences := none }) = true ∧
    (putProfileHandler "u@x.com"
        { userId := some "evil", _id := some "E", createdAt := some 99,
          updatedAt := some 99, bio := some "hello", organization := none,
          role := none, phone := none, timezone := none, preferences := none }
        [defaultProfile "u@x.com" "pid" 0] "f" 4 =
      putProfileHandler "u@x.com"
        (stripImmutable
          { userId := some "evil", _id := some "E", createdAt := some 99,
            updatedAt := some 99, bio := some "hello", organization := none,
            role := none, phone := none, timezone := none, preferences := none })
        [defaultProfile "u@x.com" "pid" 0] "f" 4 ∧
    ∃ p2, putProfileHandler "u@x.com"
        { userId := some "evil", _id := some "E", createdAt := some 99,
          updatedAt := some 99, bio := some "hello", organization := none,
          role := none, phone := none, timezone := none, preferences := none }
        [defaultProfile "u@x.com" "pid" 0] "f" 4 =
        (HResult.ok p2, setFirst [defaultProfile "u@x.com" "pid" 0] "u@x.com" p2) ∧
      p2.userId = (defaultProfile "u@x.com" "pid" 0).userId ∧
      p2._id = (defaultProfile "u@x.com" "pid" 0)._id ∧
      p2.createdAt = (defaultProfile "u@x.com" "pid" 0).createdAt) :=
  ⟨rfl, rfl,
    putProfile_ignores_immutable "u@x.com" _ _ "f" 4 _ rfl rfl⟩

/-- C6: when no Account resolves for the identity key, GET /api/me answers
404 and leaves both stores untouched, whatever the profile store holds. -/
theorem getMe_account_missing (identifier : String) (db : DB)
    (freshId : String) (now : Nat)
    (h : resolveUser db.users identifier = none) :
    getMeHandler identifier db freshId now =
      (HResult.err 404 "User not found", db) := by
  unfold getMeHandler
  rw [h]

/-- Witness for C6: no account matches, yet a profile for the key exists
and survives unchanged. -/
theorem getMe_account_missing_witness :
    resolveUser ([] : List Account) "a@x.com" = none ∧
    getMeHandler "a@x.com" ⟨[], [defaultProfile "a@x.com" "p1" 0]⟩ "f" 5 =
      (HResult.err 404 "User not found",
        ⟨[], [defaultProfile "a@x.com" "p1" 0]⟩) :=
  ⟨by decide, getMe_account_missing "a@x.com" ⟨[], [defaultProfile "a@x.com" "p1" 0]⟩
    "f" 5 (by decide)⟩

/-- C7: once the Account is resolved, both /api/me routes key every Profile
lookup, creation and upsert by the Account email: GET either leaves the
profile store alone or appends only the default profile at that email and
merges with the profile found (or created) at that email, and PUT only ever
adds or rewrites profiles whose key is that email. -/
theorem profile_keyed_by_account_email (identifier : String) (db : DB)
    (freshId : String) (now : Nat) (body : MeBody) (u : Account)
    (hres : resolveUser db.users identifier = some u) :
    ((getMeHandler identifier db freshId now).2.profiles = db.profiles ∨
      (getMeHandler identifier db freshId now).2.profiles =
        db.profiles ++ [defaultProfile u.email freshId now]) ∧
    (getMeHandler identifier db freshId now).1 =
      HResult.ok (mergeGet u
        ((findProfile db.profiles u.email).getD (defaultProfile u.email freshId now))) ∧
    (∀ q ∈ (putMeHandler identifier body db freshId now).2.profiles,
      q ∈ db.profiles ∨ q.userId = u.email) := by
  refine ⟨?_, ?_, ?_⟩
  · simp only [getMeHandler, hres]
    cases hf : findProfile db.profiles u.email with
    | some p => left; rfl
    | none => right; rfl
  · simp only [getMeHandler, hres]
    cases hf : findProfile db.profiles u.email with
    | some p => simp
    | none => simp
  · simp only [putMeHandler, hres]
    cases hfe : findUserByEmail db.users u.email with
    | none =>
        intro q hq
        left
        exact hq
    | some target =>
        by_cases hv : validBody (meProfileUpdates body) = true
        · cases hf : findProfile db.profiles u.email with
          | some p =>
              have hpu : p.userId = u.email := findProfile_userId _ _ _ hf
              simp only [hv, if_true]
              intro q hq
              rcases mem_setFirst _ _ _ _ hq with h1 | h1
              · left; exact h1
              · right
                rw [h1]
                simp [applySet, meProfileUpdates, hpu]
          | none =>
              simp only [hv, if_true]
              intro q hq
              rcases List.mem_append.mp hq with h1 | h1
              · left; exact h1
              · right
                rw [List.mem_singleton.mp h1]
                simp [applySet, meProfileUpdates, defaultProfile]
        · simp only [hv, if_false]
          intro q hq
          left
          exact hq

/-- Account fixture for the concrete scenarios: the Account
`{email:"a@x.com", name:"Ann"}` with every other schema field at its
default. -/
def annAccount : Account :=
  { _id := "656e6f636f64656364363434"
    email := "a@x.com"
    name := some "Ann"
    avatar := some ""
    image := some ""
    organization := some ""
    phone := some ""
    role := some "user"
    isProfileComplete := some false
    createdAt := 0
    updatedAt := 0 }

/-- Witness for C7 at a concrete account, empty profile store and a body
setting the timezone. -/
theorem profile_keyed_by_account_email_witness :
    resolveUser [annAccount] "a@x.com" = some annAccount ∧
    (((getMeHandler "a@x.com" ⟨[annAccount], []⟩ "p1" 0).2.profiles = [] ∨
      (getMeHandler "a@x.com" ⟨[annAccount], []⟩ "p1" 0).2.profiles =
        [] ++ [defaultProfile annAccount.email "p1" 0]) ∧
    (getMeHandler "a@x.com" ⟨[annAccount], []⟩ "p1" 0).1 =
      HResult.ok (mergeGet annAccount
        ((findProfile [] annAccount.email).getD (defaultProfile annAccount.email "p1" 0))) ∧
    (∀ q ∈ (putMeHandler "a@x.com"
        { name := none, avatar := none, image := none, organization := none,
          phone := none, timezone := some "UTC", preferences := none }
        ⟨[annAccount], []⟩ "p1" 0).2.profiles,
      q ∈ ([] : List Profile) ∨ q.userId = annAccount.email)) :=
  ⟨by decide,
    profile_keyed_by_account_email "a@x.com" ⟨[annAccount], []⟩ "p1" 0
      { name := none, avatar := none, image := none, organization := none,
        phone := none, timezone := some "UTC", preferences := none }
      annAccount (by decide)⟩

/-- C8 counterexample: with Account {email:"a@x.com", name:"Ann"} and no
Profile, GET /api/me does NOT return an empty preferences object — the
auto-created profile carries the schema defaults, which the merge then
returns, so the response claimed by the specification (preferences = {})
is not what the handler sends. -/
theorem getMe_autocreate_empty_prefs_counterexample :
    (getMeHandler "a@x.com" ⟨[annAccount], []⟩ "p1" 0).1 ≠
      HResult.ok
        { email := "a@x.com", name := "Ann", avatar := "", image := "",
          organization := "", phone := "", timezone := "Africa/Tunis",
          preferences := none } := by
  decide

/-- C8 amended: with Account {email:"a@x.com", name:"Ann"} and no Profile,
GET /api/me auto-creates the default Profile and returns the merged object
with empty strings, timezone "Africa/Tunis" and the schema-default
preferences object (all notification toggles true except criticalOnly,
celsius/metric units, language "en"). -/
theorem getMe_autocreate_default_prefs :
    getMeHandler "a@x.com" ⟨[annAccount], []⟩ "p1" 0 =
      (HResult.ok
        { email := "a@x.com", name := "Ann", avatar := "", image := "",
          organization := "", phone := "", timezone := "Africa/Tunis",
          preferences := some defaultPreferences },
        ⟨[annAccount], [defaultProfile "a@x.com" "p1" 0]⟩) := by
  decide

/-- Body fixture for the idempotence scenario: a plain bio update. -/
def sampleBody : UpdateBody :=
  { userId := none, _id := none, createdAt := none, updatedAt := none,
    bio := some "hi", organization := none, role := none, phone := none,
    timezone := none, preferences := none }

/-- C9 counterexample: applying the same PUT /api/profile body twice is
not literally idempotent, because `timestamps: true` refreshes `updatedAt`
on the second call; at update times 0 then 1 the second response and
stored profile differ from the first in `updatedAt`. -/
theorem putProfile_not_idempotent_across_time :
    putProfileHandler "u@x.com" sampleBody
        ((putProfileHandler "u@x.com" sampleBody [] "f1" 0).2) "f2" 1 ≠
      putProfileHandler "u@x.com" sampleBody [] "f1" 0 := by
  decide

/-- C9 amended: PUT /api/profile applied twice with the same body is
idempotent up to the automatic `updatedAt` timestamp: when the second call
carries the same update time, both the response and the stored profile
equal those of the first call, for every key, body and initial store. -/
theorem putProfile_idempotent_same_time (key : String) (b : UpdateBody)
    (db : List Profile) (fid fid2 : String) (now : Nat) :
    putProfileHandler key b ((putProfileHandler key b db fid now).2) fid2 now =
      putProfileHandler key b db fid now := by
  by_cases hv : validBody (stripImmutable b) = true
  · cases hf : findProfile db key with
    | some p =>
        have hpu : p.userId = key := findProfile_userId db key p hf
        have hp2u :
            ({ applySet p (stripImmutable b) with updatedAt := now } : Profile).userId
              = key := by
          simp [applySet, stripImmutable, hpu]
        have hfirst : putProfileHandler key b db fid now =
            (HResult.ok { applySet p (stripImmutable b) with updatedAt := now },
              setFirst db key
                { applySet p (stripImmutable b) with updatedAt := now }) := by
          simp [putProfileHandler, hv, hf]
        rw [hfirst]
        have hfind2 : findProfile
            (setFirst db key { applySet p (stripImmutable b) with updatedAt := now })
              key =
            some { applySet p (stripImmutable b) with updatedAt := now } :=
          findProfile_setFirst db key p _ hf hp2u
        simp only [putProfileHandler, hv, if_true, hfind2]
        rw [applySet_strip_step p b now]
        rw [setFirst_setFirst _ _ _ hp2u]
    | none =>
        have hp2u :
            ({ applySet (defaultProfile key fid now) (stripImmutable b) with
                updatedAt := now } : Profile).userId = key := by
          simp [applySet, stripImmutable, defaultProfile]
        have hfirst : putProfileHandler key b db fid now =
            (HResult.ok
              { applySet (defaultProfile key fid now) (stripImmutable b) with
                  updatedAt := now },
              db ++ [{ applySet (defaultProfile key fid now) (stripImmutable b) with
                  updatedAt := now }]) := by
          simp [putProfileHandler, hv, hf]
        rw [hfirst]
        have hfind2 : findProfile
            (db ++ [{ applySet (defaultProfile key fid now) (stripImmutable b) with
                updatedAt := now }]) key =
            some { applySet (defaultProfile key fid now) (stripImmutable b) with
                updatedAt := now } :=
          findProfile_append_of_none db key _ hf hp2u
        simp only [putProfileHandler, hv, if_true, hfind2]
        rw [applySet_strip_step (defaultProfile key fid now) b now]
        rw [setFirst_append_missing db key _ hf hp2u]
  · have hfirst : putProfileHandler key b db fid now =
        (HResult.err 500 "ValidationError", db) := by
      simp [putProfileHandler, hv]
    rw [hfirst]
    simp [putProfileHandler, hv]

end EauSure
